import Mathlib

/-!
Verification development for the Dev Command Center dashboard server.

The server (server/src/index.js) aggregates host metrics, GitHub repository
listings, weather data, uptime and a rotating quote into one JSON payload,
and serves static client assets.  This file gives a shallow embedding of the
server's adapters, aggregator, HTTP routing and static-file logic, plus the
client formatting helpers (client/main.js), and proves properties about them.

Modelling conventions:
- JavaScript numbers are modelled as exact rationals.  The code performs only
  ring operations, division and two-decimal rounding on them, so ℚ is a
  faithful carrier away from IEEE-754 edge cases; `Number(x.toFixed(2))` is
  modelled as exact rounding to two decimals (`roundTo2`).
- A rejected promise / thrown exception is modelled as `Except.error`; a value
  returned normally is `Except.ok`.
- `fetch` is modelled as a function from the request URL to a `FetchOutcome`:
  either a rejection (network failure) or a response carrying its status, its
  body text, and the value `response.json()` would produce.  Request headers
  and failures of `response.text()` / `response.json()` themselves are not
  modelled.
- The `df -k ... | tail -n 1` subprocess is modelled as `Except String String`:
  `Except.error msg` when the command fails (non-zero exit), `Except.ok stdout`
  with the captured output (the final `df` line) otherwise.
- `JSON.stringify` output is modelled structurally by the `Json` type; the
  `Content-Length` header (a byte count of the serialized body) is omitted
  from modelled header lists.
- String scanning helpers (token splitting, path splitting, prefix tests) are
  written over `String.data` character lists by structural recursion so that
  every definition evaluates inside the kernel.
-/

/-! ### Kernel-computable string utilities -/

/-- Split a character list on runs of characters satisfying nothing in
particular: tokens are maximal runs of non-whitespace characters, empty
tokens dropped.  This is `s.trim().split(/\s+/)` for the arguments used by
the disk adapter (after a trim the JS split produces no empty tokens). -/
def wsTokensAux : List Char → List Char → List String
  | [], acc => if acc.isEmpty then [] else [⟨acc.reverse⟩]
  | c :: rest, acc =>
    if c.isWhitespace then
      if acc.isEmpty then wsTokensAux rest []
      else (⟨acc.reverse⟩ : String) :: wsTokensAux rest []
    else wsTokensAux rest (c :: acc)

/-- Tokens of `stdout.trim().split(/\s+/)` on the adapter's subprocess output. -/
def dfFields (stdout : String) : List String :=
  wsTokensAux stdout.data []

/-- Split a character list at every occurrence of `sep` (empty pieces kept),
the character-level analogue of `String.splitOn` for a one-character
separator. -/
def splitOnChar (sep : Char) : List Char → List (List Char)
  | [] => [[]]
  | c :: rest =>
    let r := splitOnChar sep rest
    if c = sep then [] :: r
    else
      match r with
      | [] => [[c]]
      | h :: t => (c :: h) :: t

/-- Kernel-computable model of `String.prototype.startsWith` /
`String.startsWith`: prefix test on the character lists. -/
def strStartsWith (s pre : String) : Bool :=
  pre.data.isPrefixOf s.data

/-- Join a list of strings with a separator, the character-level analogue of
`Array.prototype.join` / `String.intercalate`. -/
def joinWith (sep : String) : List String → String
  | [] => ""
  | [x] => x
  | x :: xs => x ++ sep ++ joinWith sep xs

/-! ### JSON values -/

/-- Structural model of the JSON values the server serializes. -/
inductive Json where
  | str (s : String)
  | num (q : ℚ)
  | bool (b : Bool)
  | null
  | arr (elems : List Json)
  | obj (fields : List (String × Json))

/-- Json object field lookup: does a top-level object carry the key `k`?
Mirrors the presence of a property in the serialized JS object. -/
def hasKey (k : String) : Json → Bool
  | .obj fields => fields.any (fun f => f.1 = k)
  | _ => false

/-! ### Disk adapter -/

/-- Model of `Number(x.toFixed(2))`: round to two decimal places. -/
def roundTo2 (q : ℚ) : ℚ := (round (q * 100) : ℤ) / 100

/-- Model of JS `Number(token)` for the whitespace-free tokens `df -k` emits:
a nonempty all-digit token parses to its decimal value, anything else is NaN
(`none`).  Exotic numeric literals (hex, exponents, signs, fractions) never
occur in `df` block counts and are not modelled. -/
def jsNumber? (s : String) : Option ℚ :=
  if s.data ≠ [] ∧ s.data.all Char.isDigit then
    some ((s.data.foldl (fun n c => n * 10 + (c.toNat - 48)) 0 : ℕ) : ℚ)
  else none

/-- Parse of the `df` output as done by `getDiskUsage`:
`const [sizeKb, usedKb] = stdout.trim().split(/\s+/).map(Number)` followed by
the `Number.isFinite` guard.  `some (sizeKb, usedKb)` exactly when both of the
first two tokens exist and are numeric. -/
def parseDfOutput (stdout : String) : Option (ℚ × ℚ) :=
  match ((dfFields stdout).get? 0).bind jsNumber?,
        ((dfFields stdout).get? 1).bind jsNumber? with
  | some sizeKb, some usedKb => some (sizeKb, usedKb)
  | _, _ => none

/-- Result of the disk adapter: success fields or the error shape. -/
inductive DiskResult where
  | success (totalBytes usedBytes freeBytes usedPercentage : ℚ)
  | failure (error details : String)
deriving DecidableEq

/-- Embedding of `getDiskUsage`: runs `df -k --output=size,used / | tail -n 1`,
parses the two fields, converts kilobytes to bytes, and degrades every
subprocess or parse failure to the `error`/`details` shape. -/
def getDiskUsage (dfExec : Except String String) : DiskResult :=
  match dfExec with
  | .error msg => .failure "Unable to determine disk usage" msg
  | .ok stdout =>
    match parseDfOutput stdout with
    | none => .failure "Unable to determine disk usage" "Invalid disk data"
    | some (sizeKb, usedKb) =>
      let sizeBytes := sizeKb * 1024
      let usedBytes := usedKb * 1024
      .success sizeBytes usedBytes (sizeBytes - usedBytes)
        (roundTo2 (usedBytes / sizeBytes * 100))

example : parseDfOutput "488245288 53898348\n" = some (488245288, 53898348) := by
  decide
example : getDiskUsage (Except.ok "1000 400\n") =
    DiskResult.success 1024000 409600 614400 40 := by
  have hp : parseDfOutput "1000 400\n" = some (1000, 400) := by decide
  simp only [getDiskUsage]
  rw [hp]
  norm_num [roundTo2, round_eq]
example : getDiskUsage (Except.ok "df: not supported") =
    DiskResult.failure "Unable to determine disk usage" "Invalid disk data" := by
  decide

/-! ### System stats (os module based adapters) -/

/-- Host OS readings consumed by the cpu and memory adapters: the values
`os.totalmem()`, `os.freemem()`, `os.loadavg()`, `os.cpus().length`,
`os.platform()` and `os.release()` would return. -/
structure OsStats where
  totalmem : ℚ
  freemem : ℚ
  load1 : ℚ
  load5 : ℚ
  load15 : ℚ
  cores : ℕ
  platform : String
  release : String

/-- Memory section shape of `getMemoryStats`. -/
structure MemoryStats where
  totalBytes : ℚ
  usedBytes : ℚ
  freeBytes : ℚ
  usedPercentage : ℚ

/-- Embedding of `getMemoryStats`. -/
def getMemoryStats (os : OsStats) : MemoryStats :=
  let total := os.totalmem
  let free := os.freemem
  let used := total - free
  { totalBytes := total
    usedBytes := used
    freeBytes := free
    usedPercentage := roundTo2 (used / total * 100) }

/-- Cpu section shape of `getCpuStats`. -/
structure CpuStats where
  load1 : ℚ
  load5 : ℚ
  load15 : ℚ
  cores : ℕ

/-- Embedding of `getCpuStats`. -/
def getCpuStats (os : OsStats) : CpuStats :=
  { load1 := roundTo2 os.load1
    load5 := roundTo2 os.load5
    load15 := roundTo2 os.load15
    cores := os.cores }

/-- Composite shape of `getSystemStats`. -/
structure SystemSnapshot where
  cpu : CpuStats
  memory : MemoryStats
  disk : DiskResult
  platform : String
  release : String

/-! ### Remote adapters (GitHub, weather) -/

/-- Outcome of one `fetch(url)` call: a rejected promise (network failure) or
a settled response carrying its HTTP status, the text `response.text()` would
yield, and the value `response.json()` would yield. -/
inductive FetchOutcome (α : Type) where
  | reject (msg : String)
  | response (status : ℕ) (text : String) (data : α)

/-- Whether a fetch outcome is a rejected promise. -/
def FetchOutcome.isReject {α : Type} : FetchOutcome α → Bool
  | .reject _ => true
  | _ => false

/-- Model of `response.ok`: status in the 2xx range. -/
def respOk (status : ℕ) : Bool := 200 ≤ status && status ≤ 299

/-- Process-wide configuration read from the environment at startup:
`GITHUB_USERNAME`, `GITHUB_TOKEN`, `WEATHER_LATITUDE`, `WEATHER_LONGITUDE`
(each defaulting to the empty string) and the resolved client asset
directory `CLIENT_DIR`. -/
structure Env where
  defaultGithubUser : String
  githubToken : String
  weatherLat : String
  weatherLon : String
  clientDir : String

/-- Model of the JS short-circuit `username || DEFAULT_GITHUB_USER` where
`username` is a string or `undefined`: an absent or empty override falls back
to the default. -/
def jsOr (o : Option String) (d : String) : String :=
  match o with
  | some s => if s = "" then d else s
  | none => d

/-- One raw repository record as returned by the GitHub API body, with the
fields the adapter reads; `none` models JSON `null`. -/
structure Repo where
  id : ℚ
  name : String
  description : Option String
  html_url : String
  pushed_at : String
  stargazers_count : ℚ
  language : Option String

/-- Normalized repository summary produced by the GitHub adapter. -/
structure RepoSummary where
  id : ℚ
  name : String
  description : Option String
  url : String
  pushedAt : String
  stars : ℚ
  language : Option String

/-- Field-for-field mapping applied to each remote repo record. -/
def mapRepo (repo : Repo) : RepoSummary :=
  { id := repo.id
    name := repo.name
    description := repo.description
    url := repo.html_url
    pushedAt := repo.pushed_at
    stars := repo.stargazers_count
    language := repo.language }

/-- Value returned (not thrown) by the GitHub adapter: the repo list on
success, the config-error shape (an `error` field only), or the remote-API
error shape (`error` and `details`). -/
inductive GithubResult where
  | repos (list : List RepoSummary)
  | configError (error : String)
  | apiError (error : String) (details : String)

/-- URL built by `getGithubRepos` for a (nonempty) username. -/
def githubUrl (user : String) : String :=
  "https://api.github.com/users/" ++ user ++ "/repos?sort=updated&per_page=5"

/-- Handling of the settled/rejected `fetch` of the GitHub adapter: a
rejection propagates (there is no try/catch around the `await`s), a non-2xx
response becomes the remote-API error shape, a 2xx response is mapped to
repo summaries. -/
def handleGithubResponse (outcome : FetchOutcome (List Repo)) :
    Except String GithubResult :=
  match outcome with
  | .reject msg => .error msg
  | .response status text data =>
    if respOk status then .ok (.repos (data.map mapRepo))
    else .ok (.apiError ("GitHub API error: " ++ toString status) text)

/-- Embedding of `getGithubRepos(username)`: resolve the username against the
configured default, return the config-error shape when none resolves, and
otherwise fetch the five most recently updated repos. -/
def getGithubRepos (username : Option String) (env : Env)
    (fetch : String → FetchOutcome (List Repo)) : Except String GithubResult :=
  let user := jsOr username env.defaultGithubUser
  if user = "" then .ok (.configError "Missing GitHub username")
  else handleGithubResponse (fetch (githubUrl user))

/-- The `current_weather` block of the weather API body; `none` models an
absent property. -/
structure CurrentWeather where
  temperature : Option ℚ
  windspeed : Option ℚ
  weathercode : Option ℚ
  time : Option String

/-- Weather API response body with the properties the adapter reads. -/
structure WeatherData where
  current_weather : Option CurrentWeather
  timezone : Option String
  hourlyRelativeHumidity : Option (List ℚ)
  hourlyApparentTemperature : Option (List ℚ)

/-- Success shape of the weather adapter.  The first five fields are dropped
from the serialized object when `none` (JS `undefined`); the last two are
always present, `none` serializing as JSON `null` (the `?? null` fallback). -/
structure WeatherValue where
  temperature : Option ℚ
  windSpeed : Option ℚ
  weatherCode : Option ℚ
  time : Option String
  timezone : Option String
  apparentTemperature : Option ℚ
  humidity : Option ℚ

/-- Value returned (not thrown) by the weather adapter. -/
inductive WeatherResult where
  | success (value : WeatherValue)
  | configError (error : String)
  | apiError (error : String) (details : String)

/-- URL built by `getWeather` from the configured coordinates. -/
def weatherUrl (env : Env) : String :=
  "https://api.open-meteo.com/v1/forecast?latitude=" ++ env.weatherLat ++
    "&longitude=" ++ env.weatherLon ++
    "&current_weather=true&hourly=relativehumidity_2m,apparent_temperature"

/-- Embedding of `getWeather`: config-error shape when either coordinate is
unset, otherwise one fetch whose rejection propagates, whose non-2xx response
becomes the remote-API error shape, and whose 2xx body is projected to the
success shape (`current_weather || ` empty object, hourly index 0 via
optional chaining with `?? null`). -/
def getWeather (env : Env) (fetch : String → FetchOutcome WeatherData) :
    Except String WeatherResult :=
  if env.weatherLat = "" ∨ env.weatherLon = "" then
    .ok (.configError "Missing WEATHER_LATITUDE or WEATHER_LONGITUDE environment variables.")
  else
    match fetch (weatherUrl env) with
    | .reject msg => .error msg
    | .response status text data =>
      if respOk status then
        let current := data.current_weather.getD
          { temperature := none, windspeed := none, weathercode := none, time := none }
        .ok (.success
          { temperature := current.temperature
            windSpeed := current.windspeed
            weatherCode := current.weathercode
            time := current.time
            timezone := data.timezone
            apparentTemperature :=
              data.hourlyApparentTemperature.bind (fun l => l.get? 0)
            humidity := data.hourlyRelativeHumidity.bind (fun l => l.get? 0) })
      else .ok (.apiError ("Weather API error: " ++ toString status) text)

/-! ### Uptime and motivation adapters -/

/-- Shape of `getUptime`. -/
structure UptimeResult where
  systemSeconds : ℚ
  processSeconds : ℚ

/-- The fixed ordered quote list of `getMotivation`. -/
def motivationQuotes : List String :=
  [ "The bugs fear you. Show them why.",
    "Deploy dreams, not excuses.",
    "Stay determined â€” even Stack Overflow sleeps sometimes.",
    "Every commit is a spell. Cast wisely.",
    "Code today like the future depends on it." ]

/-- Shape of `getMotivation`. -/
structure MotivationResult where
  quote : String
  allQuotes : List String

/-- Embedding of `getMotivation` as a function of `Date.now()` (epoch
milliseconds): `Math.floor(now / 60000) % quotes.length` selects the quote. -/
def getMotivation (nowMs : ℕ) : MotivationResult :=
  let index := nowMs / 60000 % motivationQuotes.length
  { quote := motivationQuotes.getD index ""
    allQuotes := motivationQuotes }

/-! ### Aggregator -/

/-- Outcome of `fs.readFile(filePath)`: the file's contents, a not-found
error (`error.code === 'ENOENT'`), or any other read failure. -/
inductive FileOutcome where
  | found (data : String)
  | enoent
  | otherError

/-- The ambient world a request executes against: OS readings, the disk
subprocess outcome, the two remote fetch behaviours, the static file system,
the clock, and the two uptime readings. -/
structure World where
  os : OsStats
  dfExec : Except String String
  ghFetch : String → FetchOutcome (List Repo)
  wFetch : String → FetchOutcome WeatherData
  fileRead : String → FileOutcome
  nowMs : ℕ
  systemUptime : ℚ
  processUptime : ℚ

/-- Embedding of `getSystemStats`: cpu, memory and platform data never fail;
the disk section is whatever the disk adapter produced. -/
def getSystemStats (w : World) : SystemSnapshot :=
  { cpu := getCpuStats w.os
    memory := getMemoryStats w.os
    disk := getDiskUsage w.dfExec
    platform := w.os.platform
    release := w.os.release }

/-- Embedding of `getUptime`. -/
def getUptime (w : World) : UptimeResult :=
  { systemSeconds := w.systemUptime, processSeconds := w.processUptime }

/-- Composite dashboard snapshot. -/
structure DashboardSnapshot where
  system : SystemSnapshot
  github : GithubResult
  weather : WeatherResult
  uptime : UptimeResult
  motivation : MotivationResult

/-- Embedding of `buildDashboard(username)`: `Promise.all` over the system,
GitHub and weather adapters (uptime and motivation are synchronous).  A
rejection of any member rejects the aggregate; otherwise the composite
snapshot is assembled. -/
def buildDashboard (username : Option String) (env : Env) (w : World) :
    Except String DashboardSnapshot := do
  let system := getSystemStats w
  let github ← getGithubRepos username env w.ghFetch
  let weather ← getWeather env w.wFetch
  pure { system := system
         github := github
         weather := weather
         uptime := getUptime w
         motivation := getMotivation w.nowMs }

/-! ### JSON encodings of the wire shapes

These mirror, object literal by object literal, what `JSON.stringify`
receives; a JS property whose value is `undefined` is dropped from the
serialized object, a `null`-valued property is kept. -/

/-- A string-or-null JSON property value (GitHub descriptions/languages). -/
def encodeNullableStr : Option String → Json
  | some s => .str s
  | none => .null

/-- A number-or-null JSON property value. -/
def encodeNullableNum : Option ℚ → Json
  | some q => .num q
  | none => .null

/-- A property that is dropped entirely when its value is `undefined`. -/
def optField (k : String) : Option Json → List (String × Json)
  | some j => [(k, j)]
  | none => []

/-- Serialized form of one repo summary. -/
def encodeRepo (r : RepoSummary) : Json :=
  .obj [("id", .num r.id), ("name", .str r.name),
        ("description", encodeNullableStr r.description),
        ("url", .str r.url), ("pushedAt", .str r.pushedAt),
        ("stars", .num r.stars), ("language", encodeNullableStr r.language)]

/-- Serialized form of the GitHub adapter result. -/
def encodeGithub : GithubResult → Json
  | .repos list => .arr (list.map encodeRepo)
  | .configError e => .obj [("error", .str e)]
  | .apiError e d => .obj [("error", .str e), ("details", .str d)]

/-- Serialized form of the weather success value. -/
def encodeWeatherValue (v : WeatherValue) : Json :=
  .obj (optField "temperature" (v.temperature.map Json.num) ++
        optField "windSpeed" (v.windSpeed.map Json.num) ++
        optField "weatherCode" (v.weatherCode.map Json.num) ++
        optField "time" (v.time.map Json.str) ++
        optField "timezone" (v.timezone.map Json.str) ++
        [("apparentTemperature", encodeNullableNum v.apparentTemperature),
         ("humidity", encodeNullableNum v.humidity)])

/-- Serialized form of the weather adapter result. -/
def encodeWeather : WeatherResult → Json
  | .success v => encodeWeatherValue v
  | .configError e => .obj [("error", .str e)]
  | .apiError e d => .obj [("error", .str e), ("details", .str d)]

/-- Serialized form of the disk adapter result. -/
def encodeDisk : DiskResult → Json
  | .success t u f p =>
    .obj [("totalBytes", .num t), ("usedBytes", .num u),
          ("freeBytes", .num f), ("usedPercentage", .num p)]
  | .failure e d => .obj [("error", .str e), ("details", .str d)]

/-- Serialized form of the cpu section. -/
def encodeCpu (c : CpuStats) : Json :=
  .obj [("load1", .num c.load1), ("load5", .num c.load5),
        ("load15", .num c.load15), ("cores", .num (c.cores : ℚ))]

/-- Serialized form of the memory section. -/
def encodeMemory (m : MemoryStats) : Json :=
  .obj [("totalBytes", .num m.totalBytes), ("usedBytes", .num m.usedBytes),
        ("freeBytes", .num m.freeBytes), ("usedPercentage", .num m.usedPercentage)]

/-- Serialized form of the system snapshot. -/
def encodeSystem (s : SystemSnapshot) : Json :=
  .obj [("cpu", encodeCpu s.cpu), ("memory", encodeMemory s.memory),
        ("disk", encodeDisk s.disk), ("platform", .str s.platform),
        ("release", .str s.release)]

/-- Serialized form of the uptime result. -/
def encodeUptime (u : UptimeResult) : Json :=
  .obj [("systemSeconds", .num u.systemSeconds),
        ("processSeconds", .num u.processSeconds)]

/-- Serialized form of the motivation result. -/
def encodeMotivation (m : MotivationResult) : Json :=
  .obj [("quote", .str m.quote),
        ("allQuotes", .arr (m.allQuotes.map Json.str))]

/-- Serialized form of the dashboard snapshot. -/
def encodeDashboard (d : DashboardSnapshot) : Json :=
  .obj [("system", encodeSystem d.system), ("github", encodeGithub d.github),
        ("weather", encodeWeather d.weather), ("uptime", encodeUptime d.uptime),
        ("motivation", encodeMotivation d.motivation)]

/-! ### HTTP layer -/

/-- One HTTP response: status, the headers passed to `writeHead`, and the
body handed to `res.end` (empty for a bare `res.end()`). -/
structure Response where
  status : ℕ
  headers : List (String × String)
  body : Option (Except String Json)

/-- A JSON body. -/
def Body.json (j : Json) : Option (Except String Json) := some (Except.ok j)

/-- A plain text / file-contents body. -/
def Body.text (s : String) : Option (Except String Json) := some (Except.error s)

/-- The three permissive cross-origin headers the server uses. -/
def corsHeaders : List (String × String) :=
  [("Access-Control-Allow-Origin", "*"),
   ("Access-Control-Allow-Headers", "Content-Type"),
   ("Access-Control-Allow-Methods", "GET")]

/-- Embedding of `sendJson(res, statusCode, payload)`.  The `Content-Length`
header (a byte count of the serialized body) is not modelled. -/
def sendJson (statusCode : ℕ) (payload : Json) : Response :=
  { status := statusCode
    headers := ("Content-Type", "application/json") :: corsHeaders
    body := Body.json payload }

/-- Does a response carry all three permissive cross-origin headers? -/
def hasCorsHeaders (r : Response) : Bool :=
  r.headers.contains ("Access-Control-Allow-Origin", "*") &&
  r.headers.contains ("Access-Control-Allow-Headers", "Content-Type") &&
  r.headers.contains ("Access-Control-Allow-Methods", "GET")

/-! ### Static asset serving -/

/-- Model of `path.extname(filePath)`: the extension of the final path
segment, empty for dotfiles and extensionless names. -/
def extname (p : String) : String :=
  let base := (splitOnChar '/' p.data).getLastD []
  let parts := splitOnChar '.' base
  if parts.length ≤ 1 then ""
  else if parts.length = 2 ∧ parts.getD 0 [] = [] then ""
  else ⟨'.' :: (parts.getLastD [])⟩

/-- The fixed extension-to-content-type table, with the generic binary
default. -/
def contentTypeFor (ext : String) : String :=
  if ext = ".html" then "text/html"
  else if ext = ".css" then "text/css"
  else if ext = ".js" then "application/javascript"
  else if ext = ".json" then "application/json"
  else if ext = ".svg" then "image/svg+xml"
  else "application/octet-stream"

/-- Model of `ext.toLowerCase()`. -/
def lowerStr (s : String) : String := ⟨s.data.map Char.toLower⟩

/-- Embedding of `serveStatic(req, res, filePath)`: 200 with the table
content-type on success (`Content-Length` not modelled), 404 for a missing
file, 500 for any other read error; none of these carry cross-origin
headers. -/
def serveStatic (fileRead : String → FileOutcome) (filePath : String) :
    Response :=
  match fileRead filePath with
  | .found data =>
    { status := 200
      headers := [("Content-Type", contentTypeFor (lowerStr (extname filePath)))]
      body := Body.text data }
  | .enoent => { status := 404, headers := [], body := Body.text "Not Found" }
  | .otherError => { status := 500, headers := [], body := Body.text "Server Error" }

/-- Model of POSIX `path.normalize` restricted to the absolute paths the
server builds: resolve `.` and `..` segments against a segment stack,
dropping `..` at the root (trailing-slash preservation is not modelled). -/
def normSegments (acc : List (List Char)) : List (List Char) → List (List Char)
  | [] => acc.reverse
  | seg :: rest =>
    if seg = [] ∨ seg = ['.'] then normSegments acc rest
    else if seg = ['.', '.'] then
      match acc with
      | [] => normSegments [] rest
      | _ :: tl => normSegments tl rest
    else normSegments (seg :: acc) rest

/-- Join path segments with `/` at the character level (the serialization
of a segment list). -/
def joinSegs : List (List Char) → List Char
  | [] => []
  | [s] => s
  | s :: rest => s ++ '/' :: joinSegs rest

/-- Normalization of an absolute POSIX path string. -/
def posixNormalizeAbs (p : String) : String :=
  ⟨'/' :: joinSegs (normSegments [] (splitOnChar '/' p.data))⟩

/-- The resolved static path of the request handler:
`path.normalize(path.join(CLIENT_DIR, safePath))` with the `/` →
`/index.html` rewrite applied first. -/
def resolveStaticPath (clientDir pathname : String) : String :=
  let safePath := if pathname = "/" ∨ pathname = "" then "/index.html" else pathname
  posixNormalizeAbs (clientDir ++ "/" ++ safePath)

/-! ### WHATWG URL pathname parsing

`const requestUrl = new URL(req.url, ...)` parses the raw request target
with the WHATWG URL algorithm before the handler ever looks at
`requestUrl.pathname`.  The aspect of that algorithm that matters for path
resolution is modelled here: ASCII tab/newline stripping, query/fragment
cut-off, backslashes acting as slashes (http is a special scheme), and —
the load-bearing part — removal of dot segments: a single-dot segment
(`.` or a percent-encoded variant) is dropped and a double-dot segment
(`..` or a percent-encoded variant) pops the previous segment, so the
serialized pathname never contains a `.` or `..` segment.  Percent-encoding
of further code points is not modelled: it neither creates nor destroys a
dot segment and the path segments it rewrites stay slash-free. -/

/-- Lower-cased characters of a raw path segment. -/
def lowerSeg (s : List Char) : List Char := s.map Char.toLower

/-- WHATWG single-dot path segment: `.` or `%2e`, case-insensitively. -/
def isSingleDotSeg (seg : List Char) : Bool :=
  lowerSeg seg = ['.'] ∨ lowerSeg seg = ['%', '2', 'e']

/-- WHATWG double-dot path segment: `..`, `.%2e`, `%2e.` or `%2e%2e`,
case-insensitively. -/
def isDoubleDotSeg (seg : List Char) : Bool :=
  lowerSeg seg = ['.', '.'] ∨ lowerSeg seg = ['.', '%', '2', 'e'] ∨
  lowerSeg seg = ['%', '2', 'e', '.'] ∨
  lowerSeg seg = ['%', '2', 'e', '%', '2', 'e']

/-- WHATWG path-state processing of the raw `/`-separated buffers: a
double-dot segment shortens the path, a single-dot segment is dropped, and
a trailing dot segment additionally appends an empty segment (which is why
`new URL('http://h/a/..').pathname` is `/`, with a trailing slash kept for
`/a/b/..` → `/a/`).  The accumulator holds the path segments in reverse. -/
def removeDotSegments (acc : List (List Char)) :
    List (List Char) → List (List Char)
  | [] => acc.reverse
  | [seg] =>
    if isDoubleDotSeg seg then ([] :: acc.tail).reverse
    else if isSingleDotSeg seg then ([] :: acc).reverse
    else (seg :: acc).reverse
  | seg :: rest =>
    if isDoubleDotSeg seg then removeDotSegments acc.tail rest
    else if isSingleDotSeg seg then removeDotSegments acc rest
    else removeDotSegments (seg :: acc) rest

/-- The path portion of a raw request target: strip ASCII tab/newline, let
`\` act as `/`, and cut at the first `?` or `#`. -/
def urlTargetPathChars (target : String) : List Char :=
  ((target.data.filter (fun c => !(c = '\t' || c = '\n' || c = '\r'))).map
    (fun c => if c = '\\' then '/' else c)).takeWhile
    (fun c => !(c = '?' || c = '#'))

/-- The parsed path segments of a raw origin-form request target (the
leading `/` of the target opens the path state and is not itself a
segment). -/
def urlSegs (target : String) : List (List Char) :=
  removeDotSegments []
    (splitOnChar '/'
      (match urlTargetPathChars target with
       | '/' :: tl => tl
       | l => l))

/-- Model of `new URL(req.url, base).pathname` for an origin-form request
target: the serialized, dot-segment-free pathname. -/
def urlPathname (target : String) : String :=
  ⟨'/' :: joinSegs (urlSegs target)⟩

/-! ### Request handler -/

/-- An inbound request as the handler sees it: the method, the *parsed* URL
pathname — the code derives it as `new URL(req.url, ...).pathname`, i.e.
`urlPathname` of the raw target, never the raw target itself (see
`serverRaw`) — and the `user` query parameter (`searchParams.get('user')`,
`none` when absent). -/
structure Request where
  method : String
  pathname : String
  userParam : Option String

/-- Model of `requestUrl.searchParams.get('user') || undefined` in the two
routes that read it: a present-but-empty parameter becomes `undefined`. -/
def apiUserParam : Option String → Option String
  | some s => if s = "" then none else some s
  | none => none

/-- The standard 500 body of the `/api/*` catch block. -/
def serverErrorBody (msg : String) : Json :=
  .obj [("error", .str "Server error"), ("details", .str msg)]

/-- Embedding of the `http.createServer` request handler: the OPTIONS
preflight short-circuit, the `/api/*` routing table with its catch-all 404
and its try/catch mapping escaped exceptions to 500, and static serving with
the path-containment check for everything else. -/
def server (env : Env) (w : World) (req : Request) : Response :=
  if req.method = "OPTIONS" then
    { status := 204, headers := corsHeaders, body := none }
  else if strStartsWith req.pathname "/api/" then
    if req.pathname = "/api/system" then
      sendJson 200 (encodeSystem (getSystemStats w))
    else if req.pathname = "/api/github" then
      match getGithubRepos (apiUserParam req.userParam) env w.ghFetch with
      | .ok github => sendJson 200 (encodeGithub github)
      | .error msg => sendJson 500 (serverErrorBody msg)
    else if req.pathname = "/api/weather" then
      match getWeather env w.wFetch with
      | .ok weather => sendJson 200 (encodeWeather weather)
      | .error msg => sendJson 500 (serverErrorBody msg)
    else if req.pathname = "/api/uptime" then
      sendJson 200 (encodeUptime (getUptime w))
    else if req.pathname = "/api/motivation" then
      sendJson 200 (encodeMotivation (getMotivation w.nowMs))
    else if req.pathname = "/api/dashboard" then
      match buildDashboard (apiUserParam req.userParam) env w with
      | .ok dashboard => sendJson 200 (encodeDashboard dashboard)
      | .error msg => sendJson 500 (serverErrorBody msg)
    else sendJson 404 (.obj [("error", .str "Endpoint not found")])
  else
    let resolvedPath := resolveStaticPath env.clientDir req.pathname
    if !(strStartsWith resolvedPath env.clientDir) then
      { status := 403, headers := [], body := Body.text "Forbidden" }
    else serveStatic w.fileRead resolvedPath

/-- The handler as reached from the raw request line:
`new URL(req.url, ...)` parses the raw target first, so the
`Request.pathname` handed to the handler body is the WHATWG-parsed
pathname. -/
def serverRaw (env : Env) (w : World) (method target : String)
    (userParam : Option String) : Response :=
  server env w
    { method := method, pathname := urlPathname target, userParam := userParam }

/-! ### Client formatting helpers (client/main.js) -/

/-- The unit ladder of `formatBytes`. -/
def formatBytesUnits : List String := ["B", "KB", "MB", "GB", "TB"]

/-- The `while (value >= 1024 && unitIndex < units.length - 1)` loop of
`formatBytes`, written with a structural fuel argument: since `unitIndex`
grows by one per iteration and the guard requires `unitIndex < 4`, the loop
body runs at most four times, so fuel `4` makes the fuel guard unreachable. -/
def formatBytesLoop : ℕ → ℚ → ℕ → ℚ × ℕ
  | 0, value, unitIndex => (value, unitIndex)
  | fuel + 1, value, unitIndex =>
    if 1024 ≤ value ∧ unitIndex < 4 then
      formatBytesLoop fuel (value / 1024) (unitIndex + 1)
    else (value, unitIndex)

/-- Decimal rendering of `n/10` with one forced decimal digit, for
nonnegative tenths; this is `value.toFixed(1)` applied to the exactly
rounded tenths. -/
def fixed1OfInt (n : ℤ) : String :=
  (if n < 0 then "-" else "") ++ toString (n.natAbs / 10) ++ "." ++
    toString (n.natAbs % 10)

/-- Model of `value.toFixed(1)`: exact rounding to one decimal place, then
decimal rendering. -/
def toFixed1 (q : ℚ) : String := fixed1OfInt (round (q * 10))

/-- Embedding of `formatBytes(bytes)` for finite inputs (the `N/A` guard for
NaN and infinities is vacuous over ℚ). -/
def formatBytes (bytes : ℚ) : String :=
  let r := formatBytesLoop 4 bytes 0
  toFixed1 r.1 ++ " " ++ formatBytesUnits.getD r.2 ""

/-- Embedding of `formatDuration(seconds)` for finite whole-second inputs
(uptime rendering; the `Unknown` guard is vacuous over ℕ). -/
def formatDuration (seconds : ℕ) : String :=
  let days := seconds / 86400
  let hours := seconds % 86400 / 3600
  let minutes := seconds % 3600 / 60
  let secs := seconds % 60
  let parts :=
    (if days ≠ 0 then [toString days ++ "d"] else []) ++
    (if hours ≠ 0 then [toString hours ++ "h"] else []) ++
    (if minutes ≠ 0 then [toString minutes ++ "m"] else []) ++
    [toString secs ++ "s"]
  joinWith " " parts

/-! ### Auxiliary notions and concrete fixtures used by the theorems -/

/-- A path lies inside the asset root when it is the root itself or a proper
descendant (the root followed by a path separator).  Note the server's check
is instead a plain string-prefix test on the normalized path. -/
def insideRoot (root p : String) : Bool :=
  p = root || strStartsWith p (root ++ "/")

/-- Sample OS readings. -/
def osSample : OsStats :=
  { totalmem := 2048, freemem := 1024, load1 := 1/2, load5 := 1/4,
    load15 := 1/8, cores := 4, platform := "linux", release := "6.1.0" }

/-- Environment with no GitHub user and no coordinates configured. -/
def envSample : Env :=
  { defaultGithubUser := "", githubToken := "", weatherLat := "",
    weatherLon := "", clientDir := "/srv/client" }

/-- Environment with a default GitHub user and coordinates configured. -/
def envConfigured : Env :=
  { defaultGithubUser := "octocat", githubToken := "", weatherLat := "40.7128",
    weatherLon := "-74.0060", clientDir := "/srv/client" }

/-- Sample weather API body. -/
def weatherDataSample : WeatherData :=
  { current_weather := some
      { temperature := some 20, windspeed := some 10, weathercode := some 1,
        time := some "2026-10-11T00:00" }
    timezone := some "GMT"
    hourlyRelativeHumidity := some [50]
    hourlyApparentTemperature := some [19] }

/-- The weather success value the adapter extracts from
`weatherDataSample`. -/
def weatherValueSample : WeatherValue :=
  { temperature := some 20, windSpeed := some 10, weatherCode := some 1,
    time := some "2026-10-11T00:00", timezone := some "GMT",
    apparentTemperature := some 19, humidity := some 50 }

/-- Sample raw repository record. -/
def repoSample : Repo :=
  { id := 7, name := "fun", description := none,
    html_url := "https://github.com/octocat/fun",
    pushed_at := "2026-01-01T00:00:00Z", stargazers_count := 3,
    language := some "JavaScript" }

/-- Baseline world: disk query succeeds, both remote fetches succeed, the
file system is empty. -/
def worldBase : World :=
  { os := osSample
    dfExec := Except.ok "1000 400\n"
    ghFetch := fun _ => .response 200 "" [repoSample]
    wFetch := fun _ => .response 200 "" weatherDataSample
    fileRead := fun _ => .enoent
    nowMs := 0
    systemUptime := 100
    processUptime := 5 }

/-- World in which the GitHub fetch rejects (network failure) while the disk
query and the weather fetch succeed. -/
def worldGhReject : World :=
  { worldBase with ghFetch := fun _ => .reject "fetch failed" }

/-- World whose file system answers every read with an index page. -/
def worldIndex : World :=
  { worldBase with fileRead := fun _ => .found "<html>" }

/-! ### Claim theorems -/

/-- Claim C6: the disk adapter returns the DiskQueryError shape when the
subprocess exits non-zero (the exec rejects) or its output fails to parse as
two numeric fields, and on well-formed `"<size_kb> <used_kb>"` output (a
successful parse, with a positive size) it returns
`totalBytes = size_kb * 1024`, `usedBytes = used_kb * 1024`,
`freeBytes = totalBytes - usedBytes` and
`usedPercentage = round(used/size*100, 2)`. -/
theorem disk_adapter_contract :
    (∀ msg, getDiskUsage (Except.error msg) =
      DiskResult.failure "Unable to determine disk usage" msg) ∧
    (∀ stdout, parseDfOutput stdout = none →
      getDiskUsage (Except.ok stdout) =
        DiskResult.failure "Unable to determine disk usage" "Invalid disk data") ∧
    (∀ stdout sizeKb usedKb,
      parseDfOutput stdout = some (sizeKb, usedKb) → 0 < sizeKb →
      getDiskUsage (Except.ok stdout) =
        DiskResult.success (sizeKb * 1024) (usedKb * 1024)
          (sizeKb * 1024 - usedKb * 1024) (roundTo2 (usedKb / sizeKb * 100))) := by
  refine ⟨fun msg => rfl, fun stdout h => ?_, fun stdout sizeKb usedKb h hpos => ?_⟩
  · simp only [getDiskUsage]
    rw [h]
  · simp only [getDiskUsage]
    rw [h]
    show DiskResult.success (sizeKb * 1024) (usedKb * 1024)
        (sizeKb * 1024 - usedKb * 1024)
        (roundTo2 (usedKb * 1024 / (sizeKb * 1024) * 100)) =
      DiskResult.success (sizeKb * 1024) (usedKb * 1024)
        (sizeKb * 1024 - usedKb * 1024)
        (roundTo2 (usedKb / sizeKb * 100))
    have h1024 : (1024 : ℚ) ≠ 0 := by norm_num
    rw [mul_div_mul_right _ _ h1024]

/-- Claim C6 witness: the contract evaluated at a failing exec, an unparseable
output, and the well-formed output `"1000 400"`. -/
theorem disk_adapter_contract_witness :
    getDiskUsage (Except.error "Command failed") =
      DiskResult.failure "Unable to determine disk usage" "Command failed" ∧
    getDiskUsage (Except.ok "df: unrecognized option") =
      DiskResult.failure "Unable to determine disk usage" "Invalid disk data" ∧
    getDiskUsage (Except.ok "1000 400\n") =
      DiskResult.success (1000 * 1024) (400 * 1024) (1000 * 1024 - 400 * 1024)
        (roundTo2 (400 / 1000 * 100)) :=
  ⟨disk_adapter_contract.1 "Command failed",
   disk_adapter_contract.2.1 "df: unrecognized option" (by decide),
   disk_adapter_contract.2.2 "1000 400\n" 1000 400 (by decide) (by norm_num)⟩

/-- Claim C7: the motivation adapter is a pure function of the current minute: two
times in the same minute bucket yield the identical result, the quote is the
element at index `floor(t/60000) mod 5` of the fixed quote list, and the
list has exactly five quotes. -/
theorem motivation_minute_rotation :
    (∀ t1 t2 : ℕ, t1 / 60000 = t2 / 60000 → getMotivation t1 = getMotivation t2) ∧
    (∀ t : ℕ, (getMotivation t).quote = motivationQuotes.getD (t / 60000 % 5) "") ∧
    motivationQuotes.length = 5 := by
  refine ⟨fun t1 t2 h => ?_, fun t => rfl, rfl⟩
  unfold getMotivation
  rw [h]

/-- Claim C7 witness: two times inside minute 2 give the identical quote, which is
the list element at index 2. -/
theorem motivation_minute_rotation_witness :
    getMotivation 120000 = getMotivation 179999 ∧
    (getMotivation 120000).quote = motivationQuotes.getD 2 "" :=
  ⟨motivation_minute_rotation.1 120000 179999 (by decide),
   motivation_minute_rotation.2.1 120000⟩

/-- Claim C9: the client formatting helpers meet their contract values:
`formatBytes(1536) = "1.5 KB"` and `formatDuration(90061) = "1d 1h 1m 1s"`. -/
theorem client_format_contract_values :
    formatBytes 1536 = "1.5 KB" ∧ formatDuration 90061 = "1d 1h 1m 1s" := by
  constructor
  · have hloop : formatBytesLoop 4 1536 0 = (3/2, 1) := by
      norm_num [formatBytesLoop]
    have hfix : round ((3/2 : ℚ) * 10) = 15 := by
      norm_num [round_eq]
    simp only [formatBytes, hloop, toFixed1, hfix]
    decide
  · decide

/-- Helper: the fetch-handling tail of the GitHub adapter never produces the
config-error value (it yields repo lists, remote-API errors, or propagates a
rejection). -/
theorem handleGithubResponse_ne_configError (o : FetchOutcome (List Repo))
    (e : String) :
    handleGithubResponse o ≠ Except.ok (GithubResult.configError e) := by
  cases o with
  | reject msg => simp [handleGithubResponse]
  | response status text data =>
    simp only [handleGithubResponse]
    split <;> simp

/-- Claim C10: composed with the HTTP layer's `searchParams.get('user') ||
undefined` translation, the GitHub adapter uses the override exactly when it
is a nonempty string and the configured default otherwise (so an empty
override never reaches the remote request), and the config-error branch is
taken exactly when both the override and the default are empty. -/
theorem github_user_resolution :
    (∀ (raw : Option String) (env : Env)
        (fetch : String → FetchOutcome (List Repo)),
      getGithubRepos (apiUserParam raw) env fetch =
        (let eff := match raw with
          | some s => if s = "" then env.defaultGithubUser else s
          | none => env.defaultGithubUser
        if eff = "" then
          Except.ok (GithubResult.configError "Missing GitHub username")
        else handleGithubResponse (fetch (githubUrl eff)))) ∧
    (∀ (raw : Option String) (env : Env)
        (fetch : String → FetchOutcome (List Repo)),
      getGithubRepos (apiUserParam raw) env fetch =
          Except.ok (GithubResult.configError "Missing GitHub username") ↔
        ((raw = none ∨ raw = some "") ∧ env.defaultGithubUser = "")) := by
  have main : ∀ (raw : Option String) (env : Env)
      (fetch : String → FetchOutcome (List Repo)),
      getGithubRepos (apiUserParam raw) env fetch =
        (let eff := match raw with
          | some s => if s = "" then env.defaultGithubUser else s
          | none => env.defaultGithubUser
        if eff = "" then
          Except.ok (GithubResult.configError "Missing GitHub username")
        else handleGithubResponse (fetch (githubUrl eff))) := by
    intro raw env fetch
    cases raw with
    | none => rfl
    | some s =>
      by_cases hs : s = ""
      · subst hs; rfl
      · simp [apiUserParam, getGithubRepos, jsOr, hs]
  refine ⟨main, fun raw env fetch => ?_⟩
  rw [main raw env fetch]
  cases raw with
  | none =>
    by_cases hd : env.defaultGithubUser = ""
    · simp [hd]
    · simp [hd, handleGithubResponse_ne_configError]
  | some s =>
    by_cases hs : s = ""
    · by_cases hd : env.defaultGithubUser = ""
      · simp [hs, hd]
      · simp [hs, hd, handleGithubResponse_ne_configError]
    · simp [hs, handleGithubResponse_ne_configError]

/-- Claim C10 witness: an empty override with an empty default takes the
config-error branch. -/
theorem github_user_resolution_witness :
    getGithubRepos (apiUserParam (some "")) envSample
        (fun _ => FetchOutcome.reject "unused") =
      Except.ok (GithubResult.configError "Missing GitHub username") :=
  (github_user_resolution.2 (some "") envSample
      (fun _ => FetchOutcome.reject "unused")).mpr ⟨Or.inr rfl, rfl⟩

/-- Claim C2 counterexample: an unreachable remote is a failure of the underlying
source, yet the GitHub and weather adapters propagate the `fetch` rejection
as an exception past their boundary instead of returning an error-shaped
value (there is no try/catch around their awaits). -/
theorem adapter_fetch_rejection_cex :
    getGithubRepos (some "octocat") envConfigured
        (fun _ => FetchOutcome.reject "getaddrinfo ENOTFOUND api.github.com") =
      Except.error "getaddrinfo ENOTFOUND api.github.com" ∧
    getWeather envConfigured
        (fun _ => FetchOutcome.reject "getaddrinfo ENOTFOUND api.open-meteo.com") =
      Except.error "getaddrinfo ENOTFOUND api.open-meteo.com" := ⟨rfl, rfl⟩

/-- Claim C2 (amended): the adapters convert subprocess failure, missing
configuration and non-2xx remote responses to error-shaped return values,
but a rejected fetch (unreachable remote) propagates out of the GitHub and
weather adapters as an exception. -/
theorem adapters_error_containment :
    (∀ msg, getDiskUsage (Except.error msg) =
      DiskResult.failure "Unable to determine disk usage" msg) ∧
    (∀ username env fetch, jsOr username env.defaultGithubUser = "" →
      getGithubRepos username env fetch =
        Except.ok (GithubResult.configError "Missing GitHub username")) ∧
    (∀ username env fetch status text data,
      jsOr username env.defaultGithubUser ≠ "" →
      fetch (githubUrl (jsOr username env.defaultGithubUser)) =
        FetchOutcome.response status text data →
      respOk status = false →
      getGithubRepos username env fetch =
        Except.ok (GithubResult.apiError
          ("GitHub API error: " ++ toString status) text)) ∧
    (∀ username env fetch msg,
      jsOr username env.defaultGithubUser ≠ "" →
      fetch (githubUrl (jsOr username env.defaultGithubUser)) =
        FetchOutcome.reject msg →
      getGithubRepos username env fetch = Except.error msg) ∧
    (∀ env fetch, (env.weatherLat = "" ∨ env.weatherLon = "") →
      getWeather env fetch = Except.ok (WeatherResult.configError
        "Missing WEATHER_LATITUDE or WEATHER_LONGITUDE environment variables.")) ∧
    (∀ env fetch status text data,
      ¬(env.weatherLat = "" ∨ env.weatherLon = "") →
      fetch (weatherUrl env) = FetchOutcome.response status text data →
      respOk status = false →
      getWeather env fetch = Except.ok (WeatherResult.apiError
        ("Weather API error: " ++ toString status) text)) ∧
    (∀ env fetch msg,
      ¬(env.weatherLat = "" ∨ env.weatherLon = "") →
      fetch (weatherUrl env) = FetchOutcome.reject msg →
      getWeather env fetch = Except.error msg) := by
  refine ⟨fun msg => rfl, ?_, ?_, ?_, ?_, ?_, ?_⟩
  · intro username env fetch hu
    simp only [getGithubRepos]
    rw [if_pos hu]
  · intro username env fetch status text data hu hf hst
    simp only [getGithubRepos]
    rw [if_neg hu, hf]
    simp [handleGithubResponse, hst]
  · intro username env fetch msg hu hf
    simp only [getGithubRepos]
    rw [if_neg hu, hf]
    rfl
  · intro env fetch hc
    simp only [getWeather]
    rw [if_pos hc]
  · intro env fetch status text data hc hf hst
    simp only [getWeather]
    rw [if_neg hc, hf]
    simp [hst]
  · intro env fetch msg hc hf
    simp only [getWeather]
    rw [if_neg hc, hf]

/-- Claim C2 witness: the containment conjuncts evaluated at a failing subprocess,
missing configuration, simulated 403/503 upstreams, and rejected fetches. -/
theorem adapters_error_containment_witness :
    getDiskUsage (Except.error "spawn df ENOENT") =
      DiskResult.failure "Unable to determine disk usage" "spawn df ENOENT" ∧
    getGithubRepos none envSample (fun _ => FetchOutcome.reject "unused") =
      Except.ok (GithubResult.configError "Missing GitHub username") ∧
    getGithubRepos (some "octocat") envConfigured
        (fun _ => FetchOutcome.response 403 "rate limit exceeded" []) =
      Except.ok (GithubResult.apiError "GitHub API error: 403"
        "rate limit exceeded") ∧
    getGithubRepos (some "octocat") envConfigured
        (fun _ => FetchOutcome.reject "socket hang up") =
      Except.error "socket hang up" ∧
    getWeather envSample (fun _ => FetchOutcome.reject "unused") =
      Except.ok (WeatherResult.configError
        "Missing WEATHER_LATITUDE or WEATHER_LONGITUDE environment variables.") ∧
    getWeather envConfigured
        (fun _ => FetchOutcome.response 503 "unavailable" weatherDataSample) =
      Except.ok (WeatherResult.apiError "Weather API error: 503" "unavailable") ∧
    getWeather envConfigured (fun _ => FetchOutcome.reject "socket hang up") =
      Except.error "socket hang up" :=
  ⟨adapters_error_containment.1 "spawn df ENOENT",
   adapters_error_containment.2.1 none envSample _ rfl,
   adapters_error_containment.2.2.1 (some "octocat") envConfigured _
     403 "rate limit exceeded" [] (by decide) rfl (by decide),
   adapters_error_containment.2.2.2.1 (some "octocat") envConfigured _
     "socket hang up" (by decide) rfl,
   adapters_error_containment.2.2.2.2.1 envSample _ (Or.inl rfl),
   adapters_error_containment.2.2.2.2.2.1 envConfigured _
     503 "unavailable" weatherDataSample (by decide) rfl (by decide),
   adapters_error_containment.2.2.2.2.2.2 envConfigured _
     "socket hang up" (by decide) rfl⟩

/-- World in which the GitHub fetch settles with a 403 while the disk query
and the weather fetch succeed. -/
def worldGh403 : World :=
  { worldBase with ghFetch := fun _ => .response 403 "rate limit exceeded" [] }

/-- Claim C1 counterexample: with the disk query and the weather call succeeding
and the GitHub call failing (its fetch rejects — an unreachable remote),
`buildDashboard` does not return a composite snapshot at all: the rejection
aborts the aggregate and the call itself fails. -/
theorem dashboard_fetch_rejection_cex :
    getDiskUsage worldGhReject.dfExec =
      DiskResult.success 1024000 409600 614400 40 ∧
    getWeather envConfigured worldGhReject.wFetch =
      Except.ok (WeatherResult.success weatherValueSample) ∧
    buildDashboard (some "octocat") envConfigured worldGhReject =
      Except.error "fetch failed" := by
  refine ⟨?_, rfl, rfl⟩
  have hd : worldGhReject.dfExec = Except.ok "1000 400\n" := rfl
  have hp : parseDfOutput "1000 400\n" = some (1000, 400) := by decide
  rw [hd]
  simp only [getDiskUsage]
  rw [hp]
  norm_num [roundTo2, round_eq]

/-- Claim C1 (amended): when exactly one of the three sources fails *by returning
its error-shaped value* (a failed or unparseable disk subprocess, or a
non-2xx settled response mapped to the remote-API error shape) while the
other two succeed, `buildDashboard` returns the composite snapshot with that
error shape in place and the two success shapes intact; a rejected fetch,
by contrast, fails the aggregate call (see the counterexample). -/
theorem buildDashboard_partial_error_shapes :
    (∀ (username : Option String) (env : Env) (w : World) (e d : String)
        (rs : List RepoSummary) (v : WeatherValue),
      getDiskUsage w.dfExec = DiskResult.failure e d →
      getGithubRepos username env w.ghFetch = Except.ok (GithubResult.repos rs) →
      getWeather env w.wFetch = Except.ok (WeatherResult.success v) →
      buildDashboard username env w = Except.ok
        { system := { cpu := getCpuStats w.os, memory := getMemoryStats w.os,
                      disk := DiskResult.failure e d, platform := w.os.platform,
                      release := w.os.release }
          github := GithubResult.repos rs
          weather := WeatherResult.success v
          uptime := getUptime w
          motivation := getMotivation w.nowMs }) ∧
    (∀ (username : Option String) (env : Env) (w : World)
        (t u f p : ℚ) (e d : String) (v : WeatherValue),
      getDiskUsage w.dfExec = DiskResult.success t u f p →
      getGithubRepos username env w.ghFetch =
        Except.ok (GithubResult.apiError e d) →
      getWeather env w.wFetch = Except.ok (WeatherResult.success v) →
      buildDashboard username env w = Except.ok
        { system := { cpu := getCpuStats w.os, memory := getMemoryStats w.os,
                      disk := DiskResult.success t u f p,
                      platform := w.os.platform, release := w.os.release }
          github := GithubResult.apiError e d
          weather := WeatherResult.success v
          uptime := getUptime w
          motivation := getMotivation w.nowMs }) ∧
    (∀ (username : Option String) (env : Env) (w : World)
        (t u f p : ℚ) (rs : List RepoSummary) (e d : String),
      getDiskUsage w.dfExec = DiskResult.success t u f p →
      getGithubRepos username env w.ghFetch = Except.ok (GithubResult.repos rs) →
      getWeather env w.wFetch = Except.ok (WeatherResult.apiError e d) →
      buildDashboard username env w = Except.ok
        { system := { cpu := getCpuStats w.os, memory := getMemoryStats w.os,
                      disk := DiskResult.success t u f p,
                      platform := w.os.platform, release := w.os.release }
          github := GithubResult.repos rs
          weather := WeatherResult.apiError e d
          uptime := getUptime w
          motivation := getMotivation w.nowMs }) := by
  refine ⟨?_, ?_, ?_⟩
  · intro username env w e d rs v hdisk hgh hw
    unfold buildDashboard getSystemStats
    rw [hdisk, hgh, hw]
    rfl
  · intro username env w t u f p e d v hdisk hgh hw
    unfold buildDashboard getSystemStats
    rw [hdisk, hgh, hw]
    rfl
  · intro username env w t u f p rs e d hdisk hgh hw
    unfold buildDashboard getSystemStats
    rw [hdisk, hgh, hw]
    rfl

/-- Claim C1 witness: a settled 403 from GitHub with the disk query and the
weather call succeeding yields the composite snapshot with the remote-API
error shape in the GitHub slot. -/
theorem buildDashboard_partial_error_shapes_witness :
    buildDashboard (some "octocat") envConfigured worldGh403 = Except.ok
      { system := { cpu := getCpuStats worldGh403.os,
                    memory := getMemoryStats worldGh403.os,
                    disk := DiskResult.success (1000 * 1024) (400 * 1024)
                      (1000 * 1024 - 400 * 1024)
                      (roundTo2 (400 * 1024 / ((1000 : ℚ) * 1024) * 100)),
                    platform := worldGh403.os.platform,
                    release := worldGh403.os.release }
        github := GithubResult.apiError "GitHub API error: 403"
          "rate limit exceeded"
        weather := WeatherResult.success weatherValueSample
        uptime := getUptime worldGh403
        motivation := getMotivation worldGh403.nowMs } :=
  buildDashboard_partial_error_shapes.2.1 (some "octocat") envConfigured
    worldGh403 (1000 * 1024) (400 * 1024) (1000 * 1024 - 400 * 1024)
    (roundTo2 (400 * 1024 / ((1000 : ℚ) * 1024) * 100))
    "GitHub API error: 403" "rate limit exceeded" weatherValueSample
    (by
      have hd : worldGh403.dfExec = Except.ok "1000 400\n" := rfl
      have hp : parseDfOutput "1000 400\n" = some (1000, 400) := by decide
      rw [hd]
      simp only [getDiskUsage]
      rw [hp])
    rfl rfl

/-- Claim C4 counterexample: configuration failures of the GitHub and weather
adapters serialize with an `error` field but *without* a `details` field, so
not every configuration-failure value carries the full `error`/`details`
error shape. -/
theorem config_error_missing_details_cex :
    getGithubRepos none envSample (fun _ => FetchOutcome.reject "unused") =
      Except.ok (GithubResult.configError "Missing GitHub username") ∧
    getWeather envSample (fun _ => FetchOutcome.reject "unused") =
      Except.ok (WeatherResult.configError
        "Missing WEATHER_LATITUDE or WEATHER_LONGITUDE environment variables.") ∧
    hasKey "error"
      (encodeGithub (GithubResult.configError "Missing GitHub username")) = true ∧
    hasKey "details"
      (encodeGithub (GithubResult.configError "Missing GitHub username")) = false ∧
    hasKey "details"
      (encodeWeather (WeatherResult.configError
        "Missing WEATHER_LATITUDE or WEATHER_LONGITUDE environment variables.")) =
      false :=
  ⟨rfl, rfl, rfl, rfl, rfl⟩

/-- Claim C4 (amended): every adapter result value serializes either to its success
shape (no `error` key: the success object or the repo array) or to an error
shape carrying the `error` key — never a mixture; disk and remote-API
failures carry both `error` and `details`, while configuration failures
carry `error` only. -/
theorem result_error_shapes :
    (∀ t u f p, hasKey "error" (encodeDisk (DiskResult.success t u f p)) = false) ∧
    (∀ e d, hasKey "error" (encodeDisk (DiskResult.failure e d)) = true ∧
            hasKey "details" (encodeDisk (DiskResult.failure e d)) = true) ∧
    (∀ list, hasKey "error" (encodeGithub (GithubResult.repos list)) = false) ∧
    (∀ e, hasKey "error" (encodeGithub (GithubResult.configError e)) = true ∧
          hasKey "details" (encodeGithub (GithubResult.configError e)) = false) ∧
    (∀ e d, hasKey "error" (encodeGithub (GithubResult.apiError e d)) = true ∧
            hasKey "details" (encodeGithub (GithubResult.apiError e d)) = true) ∧
    (∀ v, hasKey "error" (encodeWeather (WeatherResult.success v)) = false) ∧
    (∀ e, hasKey "error" (encodeWeather (WeatherResult.configError e)) = true ∧
          hasKey "details" (encodeWeather (WeatherResult.configError e)) = false) ∧
    (∀ e d, hasKey "error" (encodeWeather (WeatherResult.apiError e d)) = true ∧
            hasKey "details" (encodeWeather (WeatherResult.apiError e d)) = true) := by
  refine ⟨fun t u f p => rfl, fun e d => ⟨rfl, rfl⟩, fun list => rfl,
    fun e => ⟨rfl, rfl⟩, fun e d => ⟨rfl, rfl⟩, fun v => ?_,
    fun e => ⟨rfl, rfl⟩, fun e d => ⟨rfl, rfl⟩⟩
  obtain ⟨t, ws, wc, ti, tz, ap, hu⟩ := v
  cases t <;> cases ws <;> cases wc <;> cases ti <;> cases tz <;> rfl

/-- Helper: every response produced by `sendJson` carries the three
permissive cross-origin headers. -/
theorem hasCorsHeaders_sendJson (s : ℕ) (p : Json) :
    hasCorsHeaders (sendJson s p) = true := rfl

/-- Claim C8: a GET for an `/api/`-prefixed path outside the routing table yields
HTTP 404 with body `{"error": "Endpoint not found"}` (sent through
`sendJson`, so with the JSON content type and the cross-origin headers), and
an OPTIONS request on any path yields 204 with no body and the cross-origin
headers present. -/
theorem route_404_and_preflight :
    (∀ (env : Env) (w : World) (p : String) (u : Option String),
      strStartsWith p "/api/" = true →
      p ≠ "/api/system" → p ≠ "/api/github" → p ≠ "/api/weather" →
      p ≠ "/api/uptime" → p ≠ "/api/motivation" → p ≠ "/api/dashboard" →
      server env w { method := "GET", pathname := p, userParam := u } =
        { status := 404,
          headers := ("Content-Type", "application/json") :: corsHeaders,
          body := Body.json (Json.obj [("error", Json.str "Endpoint not found")]) }) ∧
    (∀ (env : Env) (w : World) (p : String) (u : Option String),
      server env w { method := "OPTIONS", pathname := p, userParam := u } =
        { status := 204, headers := corsHeaders, body := none }) := by
  constructor
  · intro env w p u hapi h1 h2 h3 h4 h5 h6
    unfold server
    rw [if_neg (by decide : ¬("GET" = "OPTIONS")), if_pos hapi, if_neg h1,
      if_neg h2, if_neg h3, if_neg h4, if_neg h5, if_neg h6]
    rfl
  · intro env w p u
    unfold server
    rw [if_pos rfl]

/-- Claim C8 witness: the 404 route at `/api/nonexistent` and the preflight route
at `/`. -/
theorem route_404_and_preflight_witness :
    server envSample worldBase
        { method := "GET", pathname := "/api/nonexistent", userParam := none } =
      { status := 404,
        headers := ("Content-Type", "application/json") :: corsHeaders,
        body := Body.json (Json.obj [("error", Json.str "Endpoint not found")]) } ∧
    server envSample worldBase
        { method := "OPTIONS", pathname := "/", userParam := none } =
      { status := 204, headers := corsHeaders, body := none } :=
  ⟨route_404_and_preflight.1 envSample worldBase "/api/nonexistent" none
      (by decide) (by decide) (by decide) (by decide) (by decide) (by decide)
      (by decide),
   route_404_and_preflight.2 envSample worldBase "/" none⟩

/-- Claim C5 counterexample: a static-file response (here the index page served
for `/`) carries only its content type: none of the cross-origin headers are
present, so not every response the server produces carries them. -/
theorem static_response_no_cors_cex :
    server envSample worldIndex
        { method := "GET", pathname := "/", userParam := none } =
      { status := 200, headers := [("Content-Type", "text/html")],
        body := Body.text "<html>" } ∧
    hasCorsHeaders (server envSample worldIndex
      { method := "GET", pathname := "/", userParam := none }) = false :=
  ⟨rfl, rfl⟩

/-- Claim C5 (amended): every response of the `/api/*` routes (success bodies,
adapter error bodies, the 404 catch-all and the 500 catch) and every
OPTIONS preflight response carries the three permissive cross-origin
headers; static-file responses and the 403 rejection carry none of them
(see the counterexample). -/
theorem api_preflight_cors :
    ∀ (env : Env) (w : World) (req : Request),
      (req.method = "OPTIONS" ∨ strStartsWith req.pathname "/api/" = true) →
      hasCorsHeaders (server env w req) = true := by
  intro env w req h
  unfold server
  by_cases hm : req.method = "OPTIONS"
  · rw [if_pos hm]
    rfl
  · rw [if_neg hm]
    have hapi : strStartsWith req.pathname "/api/" = true := h.resolve_left hm
    rw [if_pos hapi]
    repeat' split
    all_goals rfl

/-- Claim C5 witness: the cross-origin headers on a preflight response and on the
`/api/motivation` route. -/
theorem api_preflight_cors_witness :
    hasCorsHeaders (server envSample worldBase
      { method := "OPTIONS", pathname := "/anything", userParam := none }) = true ∧
    hasCorsHeaders (server envSample worldBase
      { method := "GET", pathname := "/api/motivation", userParam := none }) = true :=
  ⟨api_preflight_cors envSample worldBase
      { method := "OPTIONS", pathname := "/anything", userParam := none }
      (Or.inl rfl),
   api_preflight_cors envSample worldBase
      { method := "GET", pathname := "/api/motivation", userParam := none }
      (Or.inr (by decide))⟩

/-- Helper: `String.append` at the character level. -/
theorem strData_append (s t : String) : (s ++ t).data = s.data ++ t.data := by
  cases s; cases t; rfl

/-- Helper: `splitOnChar` never returns the empty list. -/
theorem splitOnChar_ne_nil (sep : Char) (l : List Char) :
    splitOnChar sep l ≠ [] := by
  cases l with
  | nil => simp [splitOnChar]
  | cons c rest =>
    by_cases hc : c = sep
    · simp [splitOnChar, hc]
    · rcases hr : splitOnChar sep rest with _ | ⟨h, t⟩ <;>
        simp [splitOnChar, hc, hr]

/-- Helper: splitting a separator-free list yields that one piece. -/
theorem splitOnChar_of_not_mem (sep : Char) (l : List Char) (h : sep ∉ l) :
    splitOnChar sep l = [l] := by
  induction l with
  | nil => rfl
  | cons c rest ih =>
    have hrest : sep ∉ rest := fun hm => h (List.mem_cons_of_mem _ hm)
    have hc : ¬(c = sep) := by
      intro he
      exact h (by rw [he]; exact List.mem_cons_self _ _)
    simp [splitOnChar, hc, ih hrest]

/-- Helper: splitting distributes over an occurrence of the separator. -/
theorem splitOnChar_append (sep : Char) (xs ys : List Char) :
    splitOnChar sep (xs ++ sep :: ys) =
      splitOnChar sep xs ++ splitOnChar sep ys := by
  induction xs with
  | nil => simp [splitOnChar]
  | cons c xs ih =>
    by_cases hc : c = sep
    · simp [splitOnChar, hc, ih]
    · rcases hx : splitOnChar sep xs with _ | ⟨h, t⟩
      · exact absurd hx (splitOnChar_ne_nil sep xs)
      · simp [splitOnChar, hc, ih, hx]

/-- Helper: pieces produced by `splitOnChar` never contain the separator. -/
theorem splitOnChar_not_mem_sep (sep : Char) (l : List Char) :
    ∀ s ∈ splitOnChar sep l, sep ∉ s := by
  induction l with
  | nil =>
    intro s hs
    simp [splitOnChar] at hs
    simp [hs]
  | cons c rest ih =>
    intro s hs
    by_cases hc : c = sep
    · simp [splitOnChar, hc] at hs
      rcases hs with hs | hs
      · simp [hs]
      · exact ih s hs
    · rcases hx : splitOnChar sep rest with _ | ⟨h, t⟩
      · exact absurd hx (splitOnChar_ne_nil sep rest)
      · simp [splitOnChar, hc, hx] at hs
        rcases hs with hs | hs
        · subst hs
          intro hm
          rcases List.mem_cons.mp hm with he | hm2
          · exact hc he.symm
          · exact ih h (by rw [hx]; exact List.mem_cons_self _ _) hm2
        · exact ih s (by rw [hx]; exact List.mem_cons_of_mem _ hs)

/-- Helper: splitting inverts joining for separator-free nonempty pieces. -/
theorem splitOnChar_joinSegs (segs : List (List Char)) (hne : segs ≠ [])
    (h : ∀ s ∈ segs, '/' ∉ s) :
    splitOnChar '/' (joinSegs segs) = segs := by
  induction segs with
  | nil => exact absurd rfl hne
  | cons s rest ih =>
    cases rest with
    | nil =>
      simp only [joinSegs]
      exact splitOnChar_of_not_mem '/' s (h s (List.mem_cons_self _ _))
    | cons s2 rs =>
      have hj : joinSegs (s :: s2 :: rs) = s ++ '/' :: joinSegs (s2 :: rs) := rfl
      rw [hj, splitOnChar_append,
        splitOnChar_of_not_mem '/' s (h s (List.mem_cons_self _ _)),
        ih (by simp) (fun t ht => h t (List.mem_cons_of_mem _ ht))]
      rfl

/-- Helper: joining distributes over append for nonempty parts. -/
theorem joinSegs_append (b : List (List Char)) (hb : b ≠ []) :
    ∀ a : List (List Char), a ≠ [] →
      joinSegs (a ++ b) = joinSegs a ++ '/' :: joinSegs b := by
  intro a
  induction a with
  | nil => intro ha; exact absurd rfl ha
  | cons s rest ih =>
    intro _
    cases rest with
    | nil =>
      cases b with
      | nil => exact absurd rfl hb
      | cons b1 bs => rfl
    | cons s2 rs =>
      have h1 : joinSegs ((s :: s2 :: rs) ++ b) =
          s ++ '/' :: joinSegs ((s2 :: rs) ++ b) := rfl
      rw [h1, ih (by simp)]
      simp [joinSegs, List.append_assoc]

/-- Helper: a segment recognized by neither dot-segment test is a literal
non-dot segment. -/
theorem not_dot_of_not_dotSegs (seg : List Char)
    (h1 : isDoubleDotSeg seg = false) (h2 : isSingleDotSeg seg = false) :
    seg ≠ ['.'] ∧ seg ≠ ['.', '.'] :=
  ⟨fun h => by subst h; exact absurd h2 (by decide),
   fun h => by subst h; exact absurd h1 (by decide)⟩

/-- Helper: dot-segment removal never outputs a literal `.` or `..` segment
when the accumulator holds none. -/
theorem removeDotSegments_ok (l : List (List Char)) :
    ∀ acc : List (List Char),
      (∀ s ∈ acc, s ≠ ['.'] ∧ s ≠ ['.', '.']) →
      ∀ s ∈ removeDotSegments acc l, s ≠ ['.'] ∧ s ≠ ['.', '.'] := by
  induction l with
  | nil =>
    intro acc hacc s hs
    simp only [removeDotSegments, List.mem_reverse] at hs
    exact hacc s hs
  | cons seg rest ih =>
    intro acc hacc s hs
    have htail : ∀ s ∈ acc.tail, s ≠ ['.'] ∧ s ≠ ['.', '.'] :=
      fun s hs => hacc s (List.mem_of_mem_tail hs)
    cases rest with
    | nil =>
      cases hd : isDoubleDotSeg seg with
      | true =>
        simp only [removeDotSegments, hd, if_true, List.mem_reverse,
          List.mem_cons] at hs
        rcases hs with hs | hs
        · subst hs; exact ⟨by simp, by simp⟩
        · exact htail s hs
      | false =>
        cases hsg : isSingleDotSeg seg with
        | true =>
          simp only [removeDotSegments, hd, hsg, Bool.false_eq_true, if_false,
            if_true, List.mem_reverse, List.mem_cons] at hs
          rcases hs with hs | hs
          · subst hs; exact ⟨by simp, by simp⟩
          · exact hacc s hs
        | false =>
          simp only [removeDotSegments, hd, hsg, Bool.false_eq_true, if_false,
            List.mem_reverse, List.mem_cons] at hs
          rcases hs with hs | hs
          · subst hs; exact not_dot_of_not_dotSegs s hd hsg
          · exact hacc s hs
    | cons s2 rs =>
      cases hd : isDoubleDotSeg seg with
      | true =>
        simp only [removeDotSegments, hd, if_true] at hs
        exact ih acc.tail htail s hs
      | false =>
        cases hsg : isSingleDotSeg seg with
        | true =>
          simp only [removeDotSegments, hd, hsg, Bool.false_eq_true, if_false,
            if_true] at hs
          exact ih acc hacc s hs
        | false =>
          simp only [removeDotSegments, hd, hsg, Bool.false_eq_true,
            if_false] at hs
          refine ih (seg :: acc) ?_ s hs
          intro t ht
          rcases List.mem_cons.mp ht with ht | ht
          · subst ht; exact not_dot_of_not_dotSegs t hd hsg
          · exact hacc t ht

/-- Helper: dot-segment removal never outputs a segment containing the
separator when neither input nor accumulator holds one. -/
theorem removeDotSegments_not_mem_sep (l : List (List Char)) :
    ∀ acc : List (List Char),
      (∀ s ∈ acc, '/' ∉ s) → (∀ s ∈ l, '/' ∉ s) →
      ∀ s ∈ removeDotSegments acc l, '/' ∉ s := by
  induction l with
  | nil =>
    intro acc hacc _ s hs
    simp only [removeDotSegments, List.mem_reverse] at hs
    exact hacc s hs
  | cons seg rest ih =>
    intro acc hacc hl s hs
    have htail : ∀ s ∈ acc.tail, '/' ∉ s :=
      fun s hs => hacc s (List.mem_of_mem_tail hs)
    have hseg : '/' ∉ seg := hl seg (List.mem_cons_self _ _)
    have hrest : ∀ s ∈ rest, '/' ∉ s :=
      fun s hs => hl s (List.mem_cons_of_mem _ hs)
    cases rest with
    | nil =>
      cases hd : isDoubleDotSeg seg with
      | true =>
        simp only [removeDotSegments, hd, if_true, List.mem_reverse,
          List.mem_cons] at hs
        rcases hs with hs | hs
        · subst hs; simp
        · exact htail s hs
      | false =>
        cases hsg : isSingleDotSeg seg with
        | true =>
          simp only [removeDotSegments, hd, hsg, Bool.false_eq_true, if_false,
            if_true, List.mem_reverse, List.mem_cons] at hs
          rcases hs with hs | hs
          · subst hs; simp
          · exact hacc s hs
        | false =>
          simp only [removeDotSegments, hd, hsg, Bool.false_eq_true, if_false,
            List.mem_reverse, List.mem_cons] at hs
          rcases hs with hs | hs
          · subst hs; exact hseg
          · exact hacc s hs
    | cons s2 rs =>
      cases hd : isDoubleDotSeg seg with
      | true =>
        simp only [removeDotSegments, hd, if_true] at hs
        exact ih acc.tail htail hrest s hs
      | false =>
        cases hsg : isSingleDotSeg seg with
        | true =>
          simp only [removeDotSegments, hd, hsg, Bool.false_eq_true, if_false,
            if_true] at hs
          exact ih acc hacc hrest s hs
        | false =>
          simp only [removeDotSegments, hd, hsg, Bool.false_eq_true,
            if_false] at hs
          refine ih (seg :: acc) ?_ hrest s hs
          intro t ht
          rcases List.mem_cons.mp ht with ht | ht
          · subst ht; exact hseg
          · exact hacc t ht

/-- Helper: dot-segment removal of a nonempty buffer list is nonempty. -/
theorem removeDotSegments_ne_nil (l : List (List Char)) (hl : l ≠ []) :
    ∀ acc : List (List Char), removeDotSegments acc l ≠ [] := by
  induction l with
  | nil => exact absurd rfl hl
  | cons seg rest ih =>
    intro acc
    cases rest with
    | nil =>
      cases hd : isDoubleDotSeg seg <;> cases hsg : isSingleDotSeg seg <;>
        simp [removeDotSegments, hd, hsg]
    | cons s2 rs =>
      cases hd : isDoubleDotSeg seg <;> cases hsg : isSingleDotSeg seg <;>
        simp only [removeDotSegments, hd, hsg, Bool.false_eq_true, if_true,
          if_false] <;>
        exact ih (by simp) _

/-- Helper: the parsed segments of a raw target are nonempty. -/
theorem urlSegs_ne_nil (target : String) : urlSegs target ≠ [] :=
  removeDotSegments_ne_nil _ (splitOnChar_ne_nil _ _) []

/-- Helper: the parsed segments of a raw target contain no literal `.` or
`..` segment. -/
theorem urlSegs_ok (target : String) :
    ∀ s ∈ urlSegs target, s ≠ ['.'] ∧ s ≠ ['.', '.'] :=
  removeDotSegments_ok _ [] (by simp)

/-- Helper: the parsed segments of a raw target contain no slash. -/
theorem urlSegs_not_mem_sep (target : String) :
    ∀ s ∈ urlSegs target, '/' ∉ s :=
  removeDotSegments_not_mem_sep _ [] (by simp)
    (fun s hs => splitOnChar_not_mem_sep '/' _ s hs)

/-- Helper: `path.normalize` on a dot-free segment list only drops empty
segments. -/
theorem normSegments_of_ok (l : List (List Char)) :
    ∀ acc : List (List Char),
      (∀ s ∈ l, s ≠ ['.'] ∧ s ≠ ['.', '.']) →
      normSegments acc l = acc.reverse ++ l.filter (fun s => !s.isEmpty) := by
  induction l with
  | nil => intro acc _; simp [normSegments]
  | cons seg rest ih =>
    intro acc h
    have hseg := h seg (List.mem_cons_self _ _)
    have hrest : ∀ s ∈ rest, s ≠ ['.'] ∧ s ≠ ['.', '.'] :=
      fun s hs => h s (List.mem_cons_of_mem _ hs)
    by_cases he : seg = []
    · subst he
      simp [normSegments, ih _ hrest]
    · have h1 : ¬(seg = [] ∨ seg = ['.']) := by simp [he, hseg.1]
      simp [normSegments, h1, hseg.1, hseg.2, ih _ hrest, he,
        List.isEmpty_iff]

/-- Helper: resolving a dot-segment-free absolute pathname against a
normalized absolute root appends the pathname's nonempty segments to the
root's: the resolved path cannot leave the root. -/
theorem resolveStaticPath_joinSegs (rootSegs psegs : List (List Char))
    (hrne : rootSegs ≠ [])
    (hrok : ∀ s ∈ rootSegs, s ≠ [] ∧ s ≠ ['.'] ∧ s ≠ ['.', '.'] ∧ '/' ∉ s)
    (hpne : psegs ≠ [])
    (hpok : ∀ s ∈ psegs, s ≠ ['.'] ∧ s ≠ ['.', '.'])
    (hpns : ∀ s ∈ psegs, '/' ∉ s) :
    posixNormalizeAbs ((⟨'/' :: joinSegs rootSegs⟩ : String) ++ "/" ++
        ⟨'/' :: joinSegs psegs⟩) =
      ⟨'/' :: joinSegs (rootSegs ++ psegs.filter (fun s => !s.isEmpty))⟩ := by
  have hdata : ((⟨'/' :: joinSegs rootSegs⟩ : String) ++ "/" ++
      ⟨'/' :: joinSegs psegs⟩).data =
      '/' :: (joinSegs rootSegs ++ '/' :: ('/' :: joinSegs psegs)) := by
    rw [strData_append, strData_append]
    simp
  have hsplit : splitOnChar '/'
      ('/' :: (joinSegs rootSegs ++ '/' :: ('/' :: joinSegs psegs))) =
      [] :: (rootSegs ++ [] :: psegs) := by
    have e1 : splitOnChar '/'
        ('/' :: (joinSegs rootSegs ++ '/' :: ('/' :: joinSegs psegs))) =
        [] :: splitOnChar '/' (joinSegs rootSegs ++ '/' :: ('/' :: joinSegs psegs)) := by
      simp [splitOnChar]
    have e2 : splitOnChar '/' ('/' :: joinSegs psegs) =
        [] :: splitOnChar '/' (joinSegs psegs) := by
      simp [splitOnChar]
    rw [e1, splitOnChar_append, e2,
      splitOnChar_joinSegs rootSegs hrne (fun s hs => (hrok s hs).2.2.2),
      splitOnChar_joinSegs psegs hpne hpns]
  have hok : ∀ s ∈ ([] : List Char) :: (rootSegs ++ [] :: psegs),
      s ≠ ['.'] ∧ s ≠ ['.', '.'] := by
    intro s hs
    rcases List.mem_cons.mp hs with hs | hs
    · subst hs; exact ⟨by simp, by simp⟩
    · rcases List.mem_append.mp hs with hs | hs
      · exact ⟨(hrok s hs).2.1, (hrok s hs).2.2.1⟩
      · rcases List.mem_cons.mp hs with hs | hs
        · subst hs; exact ⟨by simp, by simp⟩
        · exact hpok s hs
  have hfilter : (([] : List Char) :: (rootSegs ++ [] :: psegs)).filter
      (fun s => !s.isEmpty) =
      rootSegs ++ psegs.filter (fun s => !s.isEmpty) := by
    have hroot : rootSegs.filter (fun s => !s.isEmpty) = rootSegs :=
      List.filter_eq_self.mpr
        (fun s hs => by simp [List.isEmpty_iff, (hrok s hs).1])
    simp [List.filter_append, hroot]
  unfold posixNormalizeAbs
  rw [hdata, hsplit, normSegments_of_ok _ [] hok, hfilter]
  rfl

/-- Claim C3: the pathname the handler resolves is the WHATWG-parsed
`new URL(req.url, ...).pathname`, whose `.`/`..` segments (encoded or not)
are removed during URL parsing.  Resolved against a normalized absolute
asset root, the request path therefore never escapes the root: for every
raw non-API GET target the resolved path lies inside the asset root and the
response is exactly static serving of that in-root path, so no file outside
the asset root is ever read or served and the escape antecedent of the
claim never occurs (first conjunct).  The code's 403 guard is nonetheless
in place: any pathname whose resolved path fails the root-prefix check is
answered 403 without reading a file (second conjunct). -/
theorem static_containment :
    (∀ (env : Env) (w : World) (target : String) (u : Option String)
        (rootSegs : List (List Char)),
      env.clientDir = ⟨'/' :: joinSegs rootSegs⟩ →
      rootSegs ≠ [] →
      (∀ s ∈ rootSegs, s ≠ [] ∧ s ≠ ['.'] ∧ s ≠ ['.', '.'] ∧ '/' ∉ s) →
      strStartsWith (urlPathname target) "/api/" = false →
      insideRoot env.clientDir
        (resolveStaticPath env.clientDir (urlPathname target)) = true ∧
      serverRaw env w "GET" target u =
        serveStatic w.fileRead
          (resolveStaticPath env.clientDir (urlPathname target))) ∧
    (∀ (env : Env) (w : World) (p : String) (u : Option String),
      strStartsWith p "/api/" = false →
      strStartsWith (resolveStaticPath env.clientDir p) env.clientDir = false →
      server env w { method := "GET", pathname := p, userParam := u } =
        { status := 403, headers := [], body := Body.text "Forbidden" }) := by
  constructor
  · intro env w target u rootSegs hcd hrne hrok hapi
    have key : ∃ F : List (List Char),
        resolveStaticPath env.clientDir (urlPathname target) =
          ⟨'/' :: joinSegs (rootSegs ++ F)⟩ := by
      unfold resolveStaticPath
      by_cases hroot : urlPathname target = "/" ∨ urlPathname target = ""
      · rw [if_pos hroot, hcd]
        refine ⟨[['i', 'n', 'd', 'e', 'x', '.', 'h', 't', 'm', 'l']], ?_⟩
        have hidx : ("/index.html" : String) =
            ⟨'/' :: joinSegs [['i', 'n', 'd', 'e', 'x', '.', 'h', 't', 'm', 'l']]⟩ := rfl
        rw [hidx, resolveStaticPath_joinSegs rootSegs _ hrne hrok
          (by simp) (by decide) (by decide)]
        rfl
      · rw [if_neg hroot, hcd]
        have hurl : urlPathname target = ⟨'/' :: joinSegs (urlSegs target)⟩ := rfl
        rw [hurl]
        exact ⟨(urlSegs target).filter (fun s => !s.isEmpty),
          resolveStaticPath_joinSegs rootSegs (urlSegs target) hrne hrok
            (urlSegs_ne_nil target) (urlSegs_ok target)
            (urlSegs_not_mem_sep target)⟩
    obtain ⟨F, hres⟩ := key
    have hstarts : strStartsWith (⟨'/' :: joinSegs (rootSegs ++ F)⟩ : String)
        env.clientDir = true := by
      rw [hcd]
      by_cases hF : F = []
      · subst hF
        simp [strStartsWith, List.isPrefixOf_iff_prefix]
      · unfold strStartsWith
        rw [joinSegs_append F hF rootSegs hrne]
        simp only [List.isPrefixOf_iff_prefix]
        have : ('/' :: (joinSegs rootSegs ++ '/' :: joinSegs F)) =
            ('/' :: joinSegs rootSegs) ++ '/' :: joinSegs F := rfl
        rw [this]
        exact List.prefix_append _ _
    have hinside : insideRoot env.clientDir
        (⟨'/' :: joinSegs (rootSegs ++ F)⟩ : String) = true := by
      unfold insideRoot
      by_cases hF : F = []
      · subst hF
        simp [hcd]
      · rw [hcd]
        have hdata2 : ((⟨'/' :: joinSegs rootSegs⟩ : String) ++ "/").data =
            ('/' :: joinSegs rootSegs) ++ ['/'] := by
          rw [strData_append]
        have hdata3 : (⟨'/' :: joinSegs (rootSegs ++ F)⟩ : String).data =
            (('/' :: joinSegs rootSegs) ++ ['/']) ++ joinSegs F := by
          rw [joinSegs_append F hF rootSegs hrne]
          simp
        refine Bool.or_eq_true_iff.mpr (Or.inr ?_)
        unfold strStartsWith
        rw [hdata2, hdata3]
        simp only [List.isPrefixOf_iff_prefix]
        exact List.prefix_append _ _
    refine ⟨by rw [hres]; exact hinside, ?_⟩
    unfold serverRaw server
    rw [if_neg (by decide : ¬("GET" = "OPTIONS")), if_neg (by simp [hapi])]
    simp only [hres, hstarts, Bool.not_true, Bool.false_eq_true, if_false]
  · intro env w p u hapi hesc
    unfold server
    rw [if_neg (by decide : ¬("GET" = "OPTIONS")), if_neg (by simp [hapi])]
    simp [hesc]

/-- Claim C3 witness: the classic `..` traversal target `/../../etc/passwd`
parses to pathname `/etc/passwd`, resolves inside the asset root (to
`/srv/client/etc/passwd`), and is answered by static serving of that
in-root path — 404 on the empty file system — with no file outside the
root read. -/
theorem static_containment_witness :
    urlPathname "/../../etc/passwd" = "/etc/passwd" ∧
    insideRoot "/srv/client"
      (resolveStaticPath "/srv/client" (urlPathname "/../../etc/passwd")) = true ∧
    serverRaw envSample worldBase "GET" "/../../etc/passwd" none =
      { status := 404, headers := [], body := Body.text "Not Found" } := by
  have h := static_containment.1 envSample worldBase "/../../etc/passwd" none
    [['s', 'r', 'v'], ['c', 'l', 'i', 'e', 'n', 't']] rfl (by decide)
    (by decide) (by decide)
  refine ⟨rfl, h.1, ?_⟩
  rw [h.2]
  rfl
